import Mathlib

/-!
Verification of the time-series aggregation and ranking engine of the
COVID-19 dashboard (src/covid_19_dashboard.py) against its specification.

The pandas DataFrame named `data` in the source (after cleaning: rows indexed
by parsed dates, one column per country) is embedded as `Table`: a list of
dates, a list of country names, and one row of integer values per date.
The callback `update_graphs(selected_country, start_date, end_date)` is
embedded as a function on a `Table` pair; the plotly figure construction is
abstracted to the series data each figure is built from, and the exceptions
the library calls raise (plotly rejecting an unknown y column, pandas
`iloc[-1]` on an empty frame) are made explicit as error values.
-/

/-- The cleaned wide table: `dates` is the time axis (the DataFrame index
after `pd.to_datetime`, modelled as integers), `countries` the column labels,
and `rows` holds one row of values per date, one value per country. -/
structure Table where
  dates : List Int
  countries : List String
  rows : List (List Int)
  deriving Repr, DecidableEq

/-- Membership test of a timestamp in the query window, as in
`data.loc[start_date:end_date]` on a date-sorted index. -/
def inWindow (s e t : Int) : Bool :=
  decide (s ≤ t) && decide (t ≤ e)

/-- `data.loc[start_date:end_date]`: keep exactly the rows whose date lies in
the closed window, preserving order. On the sorted index the source builds,
pandas label slicing returns this contiguous subtable (and an empty table
when `start > end`). -/
def filterRange (s e : Int) (t : Table) : Table :=
  let kept := (t.dates.zip t.rows).filter (fun p => inWindow s e p.1)
  { dates := kept.map Prod.fst
    countries := t.countries
    rows := kept.map Prod.snd }

/-- Row-by-row first difference: each row minus the previous row. -/
def diffRows (prev : List Int) : List (List Int) → List (List Int)
  | [] => []
  | r :: rs => (List.zipWith (fun a b => a - b) r prev) :: diffRows r rs

/-- `data.diff().fillna(0)`: first difference along the time axis; the first
row, which `diff` leaves as NaN, becomes all zeros via `fillna(0)`. -/
def diffFill (t : Table) : Table :=
  { t with rows :=
      match t.rows with
      | [] => []
      | r :: rs => (r.map (fun _ => (0 : Int))) :: diffRows r rs }

/-- Comparison used by the ranking sort: order the (country, value) pairs of
the last row by value. -/
def valLE (a b : String × Int) : Prop := a.2 ≤ b.2

instance : DecidableRel valLE := fun a b => inferInstanceAs (Decidable (a.2 ≤ b.2))

/-- `series.sort_values(ascending=False)` in pandas: the indexer is an
ascending argsort which is then reversed (`pandas.core.sorting.nargsort`);
for the array sizes at hand numpy argsort is insertion sort, which is stable,
so the result is the reverse of a stable ascending sort. -/
def sortValuesDesc (l : List (String × Int)) : List (String × Int) :=
  (List.insertionSort valLE l).reverse

/-- A column of the table as a list of values, one per date:
`t[c]` in pandas. An absent column yields the default, mirroring only shapes
that the callers rule out. -/
def colOf (t : Table) (c : String) : List Int :=
  t.rows.map (fun r => r.getD (t.countries.indexOf c) 0)

/-- The last row of the table (`t.iloc[-1]`) paired with the column labels:
the Series that `filtered_data.iloc[-1]` produces. -/
def lastSeries (t : Table) : List (String × Int) :=
  t.countries.zip (t.rows.getLastD [])

/-- The top-5 ranking on a (country, value) series:
`series.sort_values(ascending=False).head(5).index`. -/
def rankTop5 (series : List (String × Int)) : List String :=
  ((sortValuesDesc series).take 5).map Prod.fst

/-- `filtered_data.iloc[-1].sort_values(ascending=False).head(5).index`
from the source. -/
def topCountries (t : Table) : List String :=
  rankTop5 (lastSeries t)

/-- Column projection `t[cs]`: the subtable holding the listed columns in
the listed order. -/
def selectCols (cs : List String) (t : Table) : Table :=
  { dates := t.dates
    countries := cs
    rows := t.rows.map (fun r => cs.map (fun c => r.getD (t.countries.indexOf c) 0)) }

/-- The data underlying the four figures the callback returns: the selected
entity's filtered cumulative and delta series, and the two top-5 subtables. -/
structure QueryResult where
  cumEntity : List (Int × Int)
  deltaEntity : List (Int × Int)
  topCum : Table
  topDelta : Table
  deriving Repr, DecidableEq

/-- The exceptions the callback body can raise: plotly rejects a y column
that is not in the frame (the unknown-entity case), and pandas raises an
IndexError for `iloc[-1]` on an empty frame (the empty-window case). -/
inductive QueryError where
  | unknownEntity
  | emptyWindowIndexError
  deriving Repr, DecidableEq

/-- Outcome of one callback invocation: the no-update sentinel returned for
falsy inputs, an exception, or the four series collections. -/
inductive CallbackOut where
  | noUpdate
  | failure (err : QueryError)
  | success (r : QueryResult)
  deriving Repr, DecidableEq

/-- Python truthiness test `not selected_country` on the dropdown value:
true for None and for the empty string. -/
def falsyStr : Option String → Bool
  | none => true
  | some s => s.isEmpty

/-- The callback `update_graphs(selected_country, start_date, end_date)`.
The two tables are the module-level `data` and `daily_cases`; the date inputs
arrive already parsed (None models a missing/falsy date input). The body:
falsy guard, window filtering of both tables, the two per-entity figures
(which raise on an unknown y column), then the top-5 ranking from the last
row of the filtered cumulative table (which raises on an empty window) and
the two top-5 figures built from the same ranked index. -/
def update_graphs (data daily_cases : Table) :
    Option String → Option Int → Option Int → CallbackOut
  | some c, some s, some e =>
    if c.isEmpty then .noUpdate
    else
      let filtered_data := filterRange s e data
      let filtered_daily := filterRange s e daily_cases
      if c ∈ filtered_data.countries then
        if filtered_data.dates.isEmpty then .failure .emptyWindowIndexError
        else
          let top := topCountries filtered_data
          .success
            { cumEntity := filtered_data.dates.zip (colOf filtered_data c)
              deltaEntity := filtered_daily.dates.zip (colOf filtered_daily c)
              topCum := selectCols top filtered_data
              topDelta := selectCols top filtered_daily }
      else .failure .unknownEntity
  | _, _, _ => .noUpdate

/-- The module-level state the callback reads: the two tables built once at
startup. The callback never assigns to them. -/
structure AppState where
  data : Table
  daily_cases : Table
  deriving Repr, DecidableEq

/-- One callback invocation seen with the shared state made explicit: the
body only reads `data` and `daily_cases`, so the state comes back unchanged
alongside the output. -/
def callbackStep (st : AppState) (c : Option String) (s e : Option Int) :
    CallbackOut × AppState :=
  (update_graphs st.data st.daily_cases c s e, st)

/-- One raw CSV row after `read_csv`: the entity label from the
Country/Region column, the Province/State label that the cleaning drops, and
one optional value per date column (a missing cell is NaN). The Lat/Long
columns, also dropped, are omitted. -/
structure RawRow where
  country : String
  province : Option String
  values : List (Option Int)
  deriving Repr, DecidableEq

/-- The raw CSV as parsed: the date column headers, each already put through
`pd.to_datetime(..., errors='coerce')` (none = unparseable header, NaT), and
the data rows. -/
structure RawSource where
  dateHeaders : List (Option Int)
  rows : List RawRow
  deriving Repr, DecidableEq

/-- The error `pd.read_csv` raises on a source with no data at all
(pandas EmptyDataError). -/
inductive LoadError where
  | emptyData
  deriving Repr, DecidableEq

/-- Code-point lexicographic order on character lists, the order pandas
sorts group keys in. -/
def lexLe : List Char → List Char → Bool
  | [], _ => true
  | _ :: _, [] => false
  | a :: as, b :: bs => if a < b then true else if b < a then false else lexLe as bs

/-- The group-key order of `groupby`: lexicographic on the label text. -/
def strLe (a b : String) : Prop := lexLe a.data b.data = true

instance : DecidableRel strLe := fun a b => inferInstanceAs (Decidable (lexLe a.data b.data = true))

/-- The distinct entity labels in group-key order: `groupby('Country/Region')`
sorts its keys ascending. -/
def entitiesOf (src : RawSource) : List String :=
  List.insertionSort strLe (src.rows.map (fun r => r.country)).dedup

/-- Column-wise `groupby(...).sum()` for one entity at one date column:
the values of every row carrying that label are added, a missing cell
counting as zero. -/
def sumCountry (src : RawSource) (c : String) (j : Nat) : Int :=
  (((src.rows.filter (fun r => r.country == c)).map
      (fun r => (r.values.getD j none).getD 0))).sum

/-- The frame lines 18-22 leave in the module-level `data` variable: one row
per original date column, in source order, indexed by the parsed header
(none = NaT for an unparseable header). The NaT labels stay: `dropna()` on
line 22 filters on cell values only, never on the index, and after
`groupby(...).sum()` every cell is numeric (NaN cells sum as zero), so it
drops nothing. When every header parses, this frame is the `Table` the query
engine reads, with `dates` carrying no none entries. -/
structure CleanedFrame where
  dates : List (Option Int)
  countries : List String
  rows : List (List Int)
  deriving Repr, DecidableEq

/-- Lines 18-22 of the source on a non-empty CSV: drop the identifying
columns, group rows by country and sum, transpose so dates index the rows,
and parse the date headers with `errors='coerce'`. Every column is retained,
an unparseable header becoming the NaT label of its row; the trailing
`dropna()` is a no-op on the all-numeric values and appears as such. -/
def cleanTable (src : RawSource) : CleanedFrame :=
  let entities := entitiesOf src
  { dates := src.dateHeaders
    countries := entities
    rows := (List.range src.dateHeaders.length).map
      (fun j => entities.map (fun c => sumCountry src c j)) }

/-- The whole loading pipeline `pd.read_csv` + cleaning: an entirely empty
source makes `read_csv` itself fail with pandas EmptyDataError; any parsed
source is cleaned without further checks. -/
def loadData : Option RawSource → Except LoadError CleanedFrame
  | none => .error .emptyData
  | some src => .ok (cleanTable src)

/-- A small concrete cleaned table used to instantiate the theorems. -/
def exTable : Table :=
  { dates := [1, 2, 3]
    countries := ["France", "Germany"]
    rows := [[5, 3], [7, 4], [9, 8]] }

/-- The tie-break example table: one date, six countries whose values at the
last (only) timestamp are 100, 90, 90, 80, 70, 60. -/
def exTieTable : Table :=
  { dates := [1]
    countries := ["A", "B", "C", "D", "E", "F"]
    rows := [[100, 90, 90, 80, 70, 60]] }

/-- The countries of a window-filtered table are those of the table. -/
theorem filterRange_countries (s e : Int) (t : Table) :
    (filterRange s e t).countries = t.countries := rfl

instance : IsTotal (String × Int) valLE := ⟨fun a b => Int.le_total a.2 b.2⟩

instance : IsTrans (String × Int) valLE := ⟨fun _ _ _ h₁ h₂ => le_trans h₁ h₂⟩

/-- C8: the callback is a pure function of its arguments and the two shared
tables: it hands the shared state back unchanged, and a second call with the
same arguments from the state the first call left behind returns the same
output. -/
theorem callback_pure_idempotent (st : AppState) (c : Option String) (s e : Option Int) :
    (callbackStep st c s e).2 = st ∧
    (callbackStep (callbackStep st c s e).2 c s e).1 = (callbackStep st c s e).1 :=
  ⟨rfl, rfl⟩

/-- C10: when any of the three filter inputs is falsy (None, or an empty
entity string), the callback returns the no-update sentinel and leaves the
shared state untouched. -/
theorem callback_falsy_noUpdate (st : AppState) (c : Option String) (s e : Option Int)
    (h : falsyStr c = true ∨ s = none ∨ e = none) :
    callbackStep st c s e = (.noUpdate, st) := by
  cases c <;> cases s <;> cases e <;>
    simp_all [callbackStep, update_graphs, falsyStr, String.isEmpty_iff]

/-- C10 witness: a concrete falsy call (entity cleared) is a no-op. -/
theorem callback_falsy_noUpdate_witness :
    callbackStep ⟨exTable, diffFill exTable⟩ none (some 1) (some 3) =
      (.noUpdate, ⟨exTable, diffFill exTable⟩) :=
  callback_falsy_noUpdate ⟨exTable, diffFill exTable⟩ none (some 1) (some 3) (Or.inl rfl)

/-- C2: a non-falsy entity that is not one of the table's columns makes the
callback fail with the unknown-entity error (plotly rejecting the y column),
whatever the date window. -/
theorem update_graphs_unknown_entity (data daily_cases : Table) (c : String) (s e : Int)
    (hc : c ≠ "") (hmem : c ∉ data.countries) :
    update_graphs data daily_cases (some c) (some s) (some e) = .failure .unknownEntity := by
  have hce : ¬ c.isEmpty := by simp [String.isEmpty_iff, hc]
  simp [update_graphs, hce, filterRange_countries, hmem]

/-- C2 witness: querying the concrete table for an absent country fails with
the unknown-entity error. -/
theorem update_graphs_unknown_entity_witness :
    update_graphs exTable (diffFill exTable) (some "Spain") (some 1) (some 3) =
      .failure .unknownEntity :=
  update_graphs_unknown_entity exTable (diffFill exTable) "Spain" 1 3
    (by decide) (by decide)

/-- C1 counterexample: an inverted window (start 5, end 3) over the concrete
table with a known entity does not return empty series - the callback fails
with the IndexError that `iloc[-1]` raises on the empty filtered frame. -/
theorem empty_window_crash_counterexample :
    update_graphs exTable (diffFill exTable) (some "France") (some 5) (some 3) =
      .failure .emptyWindowIndexError := by decide

/-- C1 amended: on any window containing no timestamps (inverted or
out-of-range), a query for a known, non-falsy entity fails with the
IndexError from reading the last row of the empty filtered table; ranking is
not skipped. -/
theorem update_graphs_empty_window_fails (data daily_cases : Table) (c : String) (s e : Int)
    (hc : c ≠ "") (hmem : c ∈ data.countries)
    (hemp : (filterRange s e data).dates = []) :
    update_graphs data daily_cases (some c) (some s) (some e) =
      .failure .emptyWindowIndexError := by
  have hce : ¬ c.isEmpty := by simp [String.isEmpty_iff, hc]
  simp [update_graphs, hce, filterRange_countries, hmem, hemp]

/-- C1 amended witness: the inverted window start 5 / end 3 on the concrete
table triggers the empty-window failure. -/
theorem update_graphs_empty_window_fails_witness :
    update_graphs exTable (diffFill exTable) (some "France") (some 5) (some 3) =
      .failure .emptyWindowIndexError :=
  update_graphs_empty_window_fails exTable (diffFill exTable) "France" 5 3
    (by decide) (by decide) (by decide)

/-- C4 counterexample: with last-window values A 100, B 90, C 90, D 80, E 70,
F 60, the computed top five is A, C, B, D, E - the tied pair comes out with C
before B, not B before C as the claim states. -/
theorem tie_break_counterexample :
    topCountries exTieTable = ["A", "C", "B", "D", "E"] ∧
    topCountries exTieTable ≠ ["A", "B", "C", "D", "E"] := by decide

/-- C4 amended: the ranking is the reverse of a stable ascending sort (the
pandas descending sort reverses an ascending argsort), so it is a
deterministic permutation sorted by descending value whose ties appear in
reversed original column order; on the example values the top five is
A, C, B, D, E with C preceding B. -/
theorem top5_desc_reversed_ties :
    (∀ l : List (String × Int),
        (sortValuesDesc l).Perm l ∧
        List.Pairwise (fun a b => b.2 ≤ a.2) (sortValuesDesc l)) ∧
    topCountries exTieTable = ["A", "C", "B", "D", "E"] := by
  refine ⟨fun l => ⟨(List.reverse_perm _).trans (List.perm_insertionSort valLE l), ?_⟩, by decide⟩
  have hs := List.sorted_insertionSort valLE l
  exact List.pairwise_reverse.mpr hs

/-- One cell of a table: the value of country `c` in row `i`. -/
def cellAt (t : Table) (i : Nat) (c : String) : Int :=
  (t.rows.getD i []).getD (t.countries.indexOf c) 0

/-- An in-range `getD` read is a member of the list. -/
theorem getD_mem_of_lt {α : Type} (l : List α) (d : α) (j : Nat) (h : j < l.length) :
    l.getD j d ∈ l := by
  induction l generalizing j with
  | nil => simp at h
  | cons x xs ih =>
    cases j with
    | zero => simp
    | succ k =>
      simp only [List.getD_cons_succ]
      exact List.mem_cons_of_mem x (ih k (by simpa using h))

/-- Row `i` of the first-difference rows is row `i` of the input minus its
predecessor (the seed row `prev` standing before the first). -/
theorem diffRows_getD (rs : List (List Int)) (prev : List Int) (i : Nat)
    (hi : i < rs.length) :
    (diffRows prev rs).getD i [] =
      List.zipWith (fun a b => a - b) (rs.getD i []) ((prev :: rs).getD i []) := by
  induction rs generalizing prev i with
  | nil => simp at hi
  | cons r rs ih =>
    cases i with
    | zero => simp [diffRows]
    | succ j =>
      simp only [diffRows, List.getD_cons_succ]
      exact ih r j (by simpa using hi)

/-- Index-wise view of pointwise subtraction of rows. -/
theorem zipWith_sub_getD (a b : List Int) (j : Nat) (hja : j < a.length)
    (hjb : j < b.length) :
    (List.zipWith (fun x y => x - y) a b).getD j 0 = a.getD j 0 - b.getD j 0 := by
  induction a generalizing b j with
  | nil => simp at hja
  | cons x xs ih =>
    cases b with
    | nil => simp at hjb
    | cons y ys =>
      cases j with
      | zero => simp
      | succ k =>
        simp only [List.zipWith_cons_cons, List.getD_cons_succ]
        exact ih ys k (by simpa using hja) (by simpa using hjb)

/-- A row of zeros reads zero at every index. -/
theorem map_zero_getD (r : List Int) (j : Nat) :
    ((r.map (fun _ => (0 : Int))).getD j 0) = 0 := by
  induction r generalizing j with
  | nil => simp
  | cons x xs ih =>
    cases j with
    | zero => simp
    | succ k => simp only [List.map_cons, List.getD_cons_succ]; exact ih k

/-- C5: in the delta table `data.diff().fillna(0)`, every cell of the first
row is zero, and every later cell is exactly the cumulative cell minus the
cell one timestamp earlier - negative differences included, nothing is
clamped. -/
theorem daily_cases_first_difference (t : Table)
    (hrect : ∀ r ∈ t.rows, r.length = t.countries.length)
    (c : String) (hcmem : c ∈ t.countries) (i : Nat) (hi : i < t.rows.length) :
    (i = 0 → cellAt (diffFill t) 0 c = 0) ∧
    (i ≠ 0 → cellAt (diffFill t) i c = cellAt t i c - cellAt t (i - 1) c) := by
  have hidx : t.countries.indexOf c < t.countries.length :=
    List.indexOf_lt_length.mpr hcmem
  constructor
  · intro _
    cases hrows : t.rows with
    | nil => simp [hrows] at hi
    | cons r rs =>
      simp only [cellAt, diffFill, hrows]
      exact map_zero_getD r _
  · intro hne
    cases hrows : t.rows with
    | nil => simp [hrows] at hi
    | cons r rs =>
      cases i with
      | zero => exact absurd rfl hne
      | succ j =>
        have hj : j < rs.length := by
          rw [hrows] at hi
          simpa using Nat.lt_of_succ_lt_succ hi
        have hmem₁ : rs.getD j [] ∈ t.rows := by
          rw [hrows]
          exact List.mem_cons_of_mem r (getD_mem_of_lt rs [] j hj)
        have hmem₂ : (r :: rs).getD j [] ∈ t.rows := by
          rw [hrows]
          exact getD_mem_of_lt (r :: rs) [] j (by simp; omega)
        have h1 : t.countries.indexOf c < (rs.getD j []).length := by
          rw [hrect _ hmem₁]
          exact hidx
        have h2 : t.countries.indexOf c < ((r :: rs).getD j []).length := by
          rw [hrect _ hmem₂]
          exact hidx
        simp only [cellAt, diffFill, hrows, List.getD_cons_succ, Nat.succ_sub_one]
        rw [diffRows_getD rs r j hj]
        exact zipWith_sub_getD _ _ _ h1 h2

/-- C5 witness: in the concrete table, the first delta row is zero and the
second delta cell for France is 7 - 5 = 2. -/
theorem daily_cases_first_difference_witness :
    (cellAt (diffFill exTable) 0 "France" = 0) ∧
    (cellAt (diffFill exTable) 1 "France" = cellAt exTable 1 "France" - cellAt exTable 0 "France") :=
  ⟨(daily_cases_first_difference exTable (by decide) "France" (by decide) 0 (by decide)).1 rfl,
   (daily_cases_first_difference exTable (by decide) "France" (by decide) 1 (by decide)).2 (by decide)⟩

/-- A parsed source whose only date header is unparseable. -/
def srcNoDates : RawSource :=
  { dateHeaders := [none], rows := [⟨"France", none, [some 5]⟩] }

/-- A parsed source whose date headers are out of chronological order. -/
def srcUnsorted : RawSource :=
  { dateHeaders := [some 5, some 3], rows := [⟨"France", none, [some 1, some 2]⟩] }

/-- C6 counterexample: a non-empty source whose single date header fails to
parse does not make the loader fail - it returns a valid table that keeps
the row, its value 5 intact, under a NaT date label. -/
theorem no_dates_loads_ok_counterexample :
    loadData (some srcNoDates) =
      .ok { dates := [none], countries := ["France"], rows := [[5]] } := rfl

/-- C6 amended: only a completely empty source makes loading fail (the CSV
reader raises its empty-data error). Every parsed source - in particular one
with zero parseable date columns - loads without error, its axis being the
headers exactly as `to_datetime` left them (NaT labels included) and every
date column kept as a row: `dropna()` filters on the all-numeric cell
values, never on the index, so nothing is dropped. -/
theorem load_empty_source_error :
    (loadData none = .error .emptyData) ∧
    (∀ src : RawSource,
      loadData (some src) = .ok (cleanTable src) ∧
      (cleanTable src).dates = src.dateHeaders ∧
      (cleanTable src).rows.length = src.dateHeaders.length) :=
  ⟨rfl, fun src => ⟨rfl, rfl, by simp [cleanTable]⟩⟩

/-- C7 counterexample: the loader keeps the source order of the date axis;
headers parsing to 5 then 3 yield the axis [5, 3], which is not strictly
increasing. -/
theorem unsorted_axis_counterexample :
    loadData (some srcUnsorted) =
      .ok { dates := [some 5, some 3], countries := ["France"], rows := [[1], [2]] } ∧
    ¬ List.Pairwise (fun a b : Int => a < b) [5, 3] :=
  ⟨rfl, by decide⟩

/-- C7 amended: the loaded table's date axis is exactly the parsed headers in
source order - unparseable headers stay as NaT labels, nothing is sorted or
deduplicated - and the table is dense: one row per date column and one value
per entity in every row (missing source cells having been summed as zero). -/
theorem load_axis_and_density (src : RawSource) :
    (cleanTable src).dates = src.dateHeaders ∧
    (cleanTable src).rows.length = (cleanTable src).dates.length ∧
    (∀ r ∈ (cleanTable src).rows, r.length = (cleanTable src).countries.length) := by
  refine ⟨rfl, by simp [cleanTable], ?_⟩
  intro r hr
  rcases List.mem_map.mp hr with ⟨p, _, hp⟩
  simp [cleanTable, ← hp]

/-- C7 amended witness: on the out-of-order source the axis is the parsed
headers in source order and the first row holds one value for the single
country. -/
theorem load_axis_and_density_witness :
    (cleanTable srcUnsorted).dates = srcUnsorted.dateHeaders ∧
    (cleanTable srcUnsorted).rows.length = (cleanTable srcUnsorted).dates.length ∧
    ([1] : List Int).length = (cleanTable srcUnsorted).countries.length :=
  ⟨(load_axis_and_density srcUnsorted).1,
   (load_axis_and_density srcUnsorted).2.1,
   (load_axis_and_density srcUnsorted).2.2 [1] (by decide)⟩

/-- C9: two sub-region rows carrying the same country label are summed
column-wise into a single series for that country, whatever the labels,
values and timestamp. -/
theorem load_sums_subregions (c : String) (p₁ p₂ : Option String) (v₁ v₂ ts : Int) :
    loadData (some { dateHeaders := [some ts],
                     rows := [⟨c, p₁, [some v₁]⟩, ⟨c, p₂, [some v₂]⟩] }) =
      .ok { dates := [some ts], countries := [c], rows := [[v₁ + v₂]] } := by
  simp [loadData, cleanTable, entitiesOf, sumCountry,
        List.dedup_cons_of_mem, List.insertionSort, List.range_succ]

/-- Projecting the window-filtered (date, row) pairs to dates gives the
filtered date axis, provided the table has one row per date. -/
theorem zip_filter_map_fst (ds : List Int) (q : Int → Bool) :
    ∀ rs : List (List Int), rs.length = ds.length →
      ((ds.zip rs).filter (fun p => q p.1)).map Prod.fst = ds.filter q := by
  induction ds with
  | nil => intro rs _; simp
  | cons a as ih =>
    intro rs hlen
    cases rs with
    | nil => simp at hlen
    | cons r rs =>
      simp only [List.zip_cons_cons, List.filter_cons]
      by_cases hq : q a
      · simp only [hq, if_true, List.map_cons]
        exact congrArg (a :: ·) (ih rs (by simpa using hlen))
      · simp only [hq, Bool.false_eq_true, if_false]
        exact ih rs (by simpa using hlen)

/-- In a zip of a duplicate-free date axis with the rows, the row paired with
a date is the row at that date's index. -/
theorem zip_mem_getD (ds : List Int) :
    ∀ rs : List (List Int), ds.Nodup →
      ∀ {d : Int} {r : List Int}, (d, r) ∈ ds.zip rs →
        rs.getD (List.indexOf d ds) [] = r := by
  induction ds with
  | nil => intro rs _ d r hm; simp at hm
  | cons a as ih =>
    intro rs hnd d r hm
    cases rs with
    | nil => simp at hm
    | cons b bs =>
      rw [List.zip_cons_cons] at hm
      rcases List.mem_cons.mp hm with heq | hmem
      · cases heq
        simp [List.indexOf_cons_self]
      · have hda : a ≠ d := by
          intro h
          subst h
          exact (List.nodup_cons.mp hnd).1 (List.of_mem_zip hmem).1
        rw [List.indexOf_cons_ne as hda, Nat.succ_eq_add_one, List.getD_cons_succ]
        exact ih bs (List.nodup_cons.mp hnd).2 hmem

/-- The callback on a non-falsy known entity and a non-empty window, spelled
out: the four series it returns, the top-5 index coming from the last row of
the filtered cumulative table. -/
theorem update_graphs_success_eq (data daily_cases : Table) (c : String) (s e : Int)
    (hce : c.isEmpty = false) (hmem : c ∈ data.countries)
    (hne : (filterRange s e data).dates.isEmpty = false) :
    update_graphs data daily_cases (some c) (some s) (some e) =
      .success
        { cumEntity := (filterRange s e data).dates.zip (colOf (filterRange s e data) c)
          deltaEntity :=
            (filterRange s e daily_cases).dates.zip (colOf (filterRange s e daily_cases) c)
          topCum := selectCols (topCountries (filterRange s e data)) (filterRange s e data)
          topDelta := selectCols (topCountries (filterRange s e data))
            (filterRange s e daily_cases) } := by
  simp [update_graphs, hce, hmem, hne, filterRange_countries]

/-- C3: on a non-empty window, the ranking row is the original table's row at
the last timestamp inside the window (not the global last row), and the same
ranked top-5 index is used for both the top-5 cumulative and top-5 delta
subtables. -/
theorem update_graphs_ranks_last_window_row (data daily_cases : Table) (c : String)
    (s e : Int) (hc : c ≠ "") (hmem : c ∈ data.countries)
    (hlen : data.rows.length = data.dates.length) (hnd : data.dates.Nodup)
    (d : Int) (hd : (data.dates.filter (inWindow s e)).getLast? = some d) :
    update_graphs data daily_cases (some c) (some s) (some e) =
      .success
        { cumEntity := (filterRange s e data).dates.zip (colOf (filterRange s e data) c)
          deltaEntity :=
            (filterRange s e daily_cases).dates.zip (colOf (filterRange s e daily_cases) c)
          topCum := selectCols
            (rankTop5 (data.countries.zip (data.rows.getD (List.indexOf d data.dates) [])))
            (filterRange s e data)
          topDelta := selectCols
            (rankTop5 (data.countries.zip (data.rows.getD (List.indexOf d data.dates) [])))
            (filterRange s e daily_cases) } := by
  have hce : c.isEmpty = false := by
    rcases h : c.isEmpty with _ | _
    · rfl
    · exact absurd (String.isEmpty_iff c |>.mp h) hc
  have hfd : (filterRange s e data).dates = data.dates.filter (inWindow s e) :=
    zip_filter_map_fst data.dates (inWindow s e) data.rows hlen
  have hne : (filterRange s e data).dates.isEmpty = false := by
    rw [List.isEmpty_eq_false, hfd]
    intro h
    rw [h] at hd
    simp at hd
  have hK : ((filterRange s e data).dates).getLast? = some d := by
    rw [hfd]; exact hd
  have hKmap : (((data.dates.zip data.rows).filter
      (fun p => inWindow s e p.1)).map Prod.fst).getLast? = some d := hK
  rw [List.getLast?_map] at hKmap
  rcases Option.map_eq_some'.mp hKmap with ⟨p, hp, hpd⟩
  have hpK : p ∈ (data.dates.zip data.rows).filter (fun q => inWindow s e q.1) :=
    List.mem_of_mem_getLast? hp
  have hpzip : (p.1, p.2) ∈ data.dates.zip data.rows := List.mem_of_mem_filter hpK
  have hrow : data.rows.getD (List.indexOf d data.dates) [] = p.2 := by
    rw [← hpd]
    exact zip_mem_getD data.dates data.rows hnd hpzip
  have hlast : (filterRange s e data).rows.getLastD [] = p.2 := by
    show (((data.dates.zip data.rows).filter
      (fun q => inWindow s e q.1)).map Prod.snd).getLastD [] = p.2
    rw [List.getLastD_eq_getLast?, List.getLast?_map, hp]
    rfl
  have htop : topCountries (filterRange s e data) =
      rankTop5 (data.countries.zip (data.rows.getD (List.indexOf d data.dates) [])) := by
    show rankTop5 ((filterRange s e data).countries.zip
      ((filterRange s e data).rows.getLastD [])) = _
    rw [filterRange_countries, hlast, hrow]
  rw [update_graphs_success_eq data daily_cases c s e hce hmem hne, htop]

/-- C3 witness: on the concrete table with window 1..2, the last in-window
timestamp is 2 and the callback succeeds with both top-5 subtables ranked
from the table's row at timestamp 2. -/
theorem update_graphs_ranks_last_window_row_witness :
    update_graphs exTable (diffFill exTable) (some "France") (some 1) (some 2) =
      .success
        { cumEntity := (filterRange 1 2 exTable).dates.zip (colOf (filterRange 1 2 exTable) "France")
          deltaEntity := (filterRange 1 2 (diffFill exTable)).dates.zip
            (colOf (filterRange 1 2 (diffFill exTable)) "France")
          topCum := selectCols
            (rankTop5 (exTable.countries.zip (exTable.rows.getD (List.indexOf 2 exTable.dates) [])))
            (filterRange 1 2 exTable)
          topDelta := selectCols
            (rankTop5 (exTable.countries.zip (exTable.rows.getD (List.indexOf 2 exTable.dates) [])))
            (filterRange 1 2 (diffFill exTable)) } :=
  update_graphs_ranks_last_window_row exTable (diffFill exTable) "France" 1 2
    (by decide) (by decide) (by decide) (by decide) 2 (by decide)
